import Mathlib

/-!
Shallow embedding of the generator status monitoring core
(sergbondckua/generator_status_monitoring): the session ledger
(src/database/repository.py), the statistics aggregator
(src/database/statistics.py), the bright-spot detector
(src/detection/detector.py) and the monitor state machine
(src/core/monitor.py), together with theorems settling the spec claims.

Modelling conventions:
* timestamps are rationals (seconds); `datetime` subtraction becomes
  rational subtraction, Python `int()` on a non-negative number of seconds
  becomes `Rat.floor`;
* SQLite rows become Lean structures; `NULL`-able columns become `Option`;
  `AUTOINCREMENT` ids are carried explicitly in the `Db` state (they start
  at 1 and are never reused, so a session id is never the falsy 0 and the
  Python truthiness tests on ids coincide with `Option.isSome`);
* a statement error raised by sqlite3 (and re-raised by the repository's
  connection context manager after rollback) is an `Except.error`; the
  database state is unchanged in that case.
-/

namespace GenMon

attribute [local semireducible] Rat.add Rat.sub Rat.mul Rat.inv

/-- Fuel configuration row (src/database/models.py, FuelConfig): rate in
liters per hour, tank capacity in liters, price per liter. -/
structure FuelConfig where
  fuel_rate_per_hour : ℚ
  fuel_tank_capacity : ℚ
  fuel_price_per_liter : ℚ
deriving Repr, DecidableEq

/-- One row of the generator_sessions table (src/database/repository.py,
CREATE TABLE generator_sessions): start_time is NOT NULL, the end-of-session
columns are NULL until the session is closed. -/
structure GeneratorSession where
  id : Nat
  start_time : ℚ
  end_time : Option ℚ := none
  duration_seconds : Option ℤ := none
  duration_hours : Option ℚ := none
  fuel_consumption_liters : Option ℚ := none
  start_bright_pixels : Option Nat := none
  end_bright_pixels : Option Nat := none
  notes : Option String := none
deriving Repr, DecidableEq

/-- One row of the generator_events table (src/database/repository.py,
CREATE TABLE generator_events). -/
structure GeneratorEvent where
  id : Nat
  timestamp : ℚ
  event_type : String
  bright_pixels : Nat
  message : Option String := none
deriving Repr, DecidableEq

/-- The durable SQLite state owned by DatabaseRepository: the three tables
plus the next AUTOINCREMENT id of each of the two growing tables. The
fuel_config singleton row may be absent (id = 1 is the only possible row). -/
structure Db where
  sessions : List GeneratorSession
  next_session_id : Nat
  events : List GeneratorEvent
  next_event_id : Nat
  fuel_config_row : Option FuelConfig
deriving Repr, DecidableEq

/-- Python int() applied to a rational number of seconds: truncation toward
zero (used for duration_seconds in end_session). -/
def pyInt (q : ℚ) : ℤ := if 0 ≤ q then q.floor else -((-q).floor)

/-- DatabaseRepository.get_fuel_config: returns the singleton row, or the
hard-coded fallback FuelConfig(1.5, 20.0, 50.0) when the row is absent
(positional arguments: rate = 1.5, tank = 20.0, price = 50.0). -/
def Db.get_fuel_config (db : Db) : FuelConfig :=
  match db.fuel_config_row with
  | none => { fuel_rate_per_hour := 3/2, fuel_tank_capacity := 20, fuel_price_per_liter := 50 }
  | some c => c

/-- DatabaseRepository.start_session: INSERT a new open session stamped with
the current time and the given bright-pixel count, return its id. -/
def Db.start_session (db : Db) (now : ℚ) (bright_pixels : Nat) : Nat × Db :=
  let sid := db.next_session_id
  (sid,
    { db with
      sessions := db.sessions ++
        [{ id := sid, start_time := now, start_bright_pixels := some bright_pixels }],
      next_session_id := sid + 1 })

/-- The end-of-session column values end_session computes for a session with
the given start_time: duration from start to now, hours, fuel at the given
rate, closing bright-pixel count and notes. -/
def closeSession (s : GeneratorSession) (now : ℚ) (rate : ℚ) (bright_pixels : Nat)
    (notes : Option String) : GeneratorSession :=
  let dur := now - s.start_time
  { s with
    end_time := some now,
    duration_seconds := some (pyInt dur),
    duration_hours := some (dur / 3600),
    fuel_consumption_liters := some (dur / 3600 * rate),
    end_bright_pixels := some bright_pixels,
    notes := notes }

/-- The row transformation of the UPDATE statement of end_session: a row
with the targeted id receives the computed end-of-session column values c
(its identity columns are untouched); other rows are unchanged. -/
def applySessionClose (session_id : Nat) (c : GeneratorSession) (s : GeneratorSession) :
    GeneratorSession :=
  if s.id == session_id then
    { s with
      end_time := c.end_time,
      duration_seconds := c.duration_seconds,
      duration_hours := c.duration_hours,
      fuel_consumption_liters := c.fuel_consumption_liters,
      end_bright_pixels := c.end_bright_pixels,
      notes := c.notes }
  else s

/-- DatabaseRepository.end_session: SELECT start_time of the session with the
given id (first match); if no row exists, log and return with no change;
otherwise compute duration/hours/fuel from that start_time to now and UPDATE
every row with that id (ids are unique in SQLite, so exactly one). Note the
source checks only existence, not whether end_time is already set. -/
def Db.end_session (db : Db) (now : ℚ) (session_id : Nat) (bright_pixels : Nat)
    (notes : Option String) : Db :=
  match db.sessions.find? (fun s => s.id == session_id) with
  | none => db
  | some s0 =>
    { db with
      sessions := db.sessions.map
        (applySessionClose session_id
          (closeSession s0 now db.get_fuel_config.fuel_rate_per_hour bright_pixels notes)) }

/-- Helper for get_active_session: of two sessions, the one starting later
(the first argument wins ties, matching a deterministic reading of
ORDER BY start_time DESC LIMIT 1). -/
def pickLatest (a b : GeneratorSession) : GeneratorSession :=
  if a.start_time < b.start_time then b else a

/-- DatabaseRepository.get_active_session: SELECT id of the open session
(end_time IS NULL) with the greatest start_time, or none. -/
def Db.get_active_session (db : Db) : Option Nat :=
  match db.sessions.filter (fun s => s.end_time.isNone) with
  | [] => none
  | s :: rest => some ((rest.foldl pickLatest s).id)

/-- DatabaseRepository.get_session: SELECT the session row with the given id. -/
def Db.get_session (db : Db) (session_id : Nat) : Option GeneratorSession :=
  db.sessions.find? (fun s => s.id == session_id)

/-- Insert a session into a list kept sorted by descending start_time
(rows already in the list win ties). -/
def insertByStartDesc (s : GeneratorSession) :
    List GeneratorSession → List GeneratorSession
  | [] => [s]
  | t :: ts => if t.start_time < s.start_time then s :: t :: ts else t :: insertByStartDesc s ts

/-- DatabaseRepository.get_all_sessions: all sessions ordered newest first,
truncated to the given LIMIT. -/
def Db.get_all_sessions (db : Db) (limit : Nat) : List GeneratorSession :=
  (db.sessions.foldr insertByStartDesc []).take limit

/-- Columns of the generator_events table as created by _init_database. -/
def generator_events_table_columns : List String :=
  ["id", "timestamp", "event_type", "bright_pixels", "message", "created_at"]

/-- Column list named by the INSERT statement inside add_event (the source
names five columns, among them snapshot_path, which the table does not have). -/
def add_event_insert_columns : List String :=
  ["timestamp", "event_type", "bright_pixels", "snapshot_path", "message"]

/-- Number of value placeholders in the VALUES clause of the add_event
INSERT statement in the source. -/
def add_event_insert_value_count : Nat := 4

/-- An SQLite INSERT statement prepares successfully only if every named
column exists in the table and the number of supplied values matches the
number of named columns; otherwise sqlite3 raises OperationalError. -/
def insertStatementOk (table_columns named_columns : List String) (value_count : Nat) : Bool :=
  named_columns.all (fun c => table_columns.contains c) &&
    named_columns.length == value_count

/-- DatabaseRepository.add_event: INSERT a new event row and return its id.
The statement from the source is checked against the events table schema; if
it is ill-formed, sqlite3 raises, the connection context manager rolls the
transaction back (so the table is unchanged) and re-raises to the caller. -/
def Db.add_event (db : Db) (now : ℚ) (event_type : String) (bright_pixels : Nat)
    (message : Option String) : Except String (Nat × Db) :=
  if insertStatementOk generator_events_table_columns add_event_insert_columns
      add_event_insert_value_count then
    let eid := db.next_event_id
    .ok (eid,
      { db with
        events := db.events ++
          [{ id := eid, timestamp := now, event_type := event_type,
             bright_pixels := bright_pixels, message := message }],
        next_event_id := eid + 1 })
  else
    .error "sqlite3.OperationalError: table generator_events has no column named snapshot_path"

/-- Number of sessions in the ledger whose end_time is unset. -/
def Db.open_session_count (db : Db) : Nat :=
  (db.sessions.filter (fun s => s.end_time.isNone)).length

/-- Aggregate read model for one day (src/database/statistics.py, DailyStats);
the date is abstracted to a day index. -/
structure DailyStats where
  date : ℤ
  total_runtime_hours : ℚ
  total_fuel_liters : ℚ
  total_cost : ℚ
  sessions_count : Nat
  avg_session_duration : ℚ
deriving Repr, DecidableEq

/-- Calendar day of a timestamp (datetime.date() collapsed to a day index:
whole days since the epoch). -/
def dateOf (t : ℚ) : ℤ := (t / 86400).floor

/-- The per-day session filter used by _get_stats_for_date: the session's
start_time falls on the given date (start_time is NOT NULL in the ledger, so
the truthiness guard of the source is always passed). -/
def onDate (d : ℤ) (s : GeneratorSession) : Bool := dateOf s.start_time == d

/-- StatisticsService._get_stats_for_date applied to the session list it
reads via get_all_sessions: filter the sessions starting on the date, sum
duration_hours and fuel_consumption_liters with NULL read as 0, price the
fuel, and average the runtime over the session count unless the day has no
sessions. -/
def get_stats_for_date (sessions : List GeneratorSession) (d : ℤ) (fuel_price : ℚ) :
    DailyStats :=
  let day_sessions := sessions.filter (onDate d)
  let total_runtime := (day_sessions.map (fun s => s.duration_hours.getD 0)).sum
  let total_fuel := (day_sessions.map (fun s => s.fuel_consumption_liters.getD 0)).sum
  let total_cost := total_fuel * fuel_price
  let avg := if day_sessions.isEmpty then 0 else total_runtime / (day_sessions.length : ℚ)
  { date := d,
    total_runtime_hours := total_runtime,
    total_fuel_liters := total_fuel,
    total_cost := total_cost,
    sessions_count := day_sessions.length,
    avg_session_duration := avg }

/-- A video frame as the detector sees it: a two-dimensional grayscale
array, a three-dimensional BGR color array, or something that is not an
image array at all (for example None from a failed capture). Pixel channel
values are natural numbers (uint8 range in practice). -/
inductive Frame where
  | gray (rows : List (List Nat))
  | color (rows : List (List (Nat × Nat × Nat)))
  | malformed
deriving Repr, DecidableEq

/-- Region of interest rectangle (src/config/settings.py, DetectionConfig.roi:
x, y, width, height). -/
structure Roi where
  x : Nat
  y : Nat
  w : Nat
  h : Nat
deriving Repr, DecidableEq

/-- Detector configuration (src/config/settings.py, DetectionConfig). The
threshold is an integer because the red-channel pass compares against
bright_threshold - 50, which may be negative. -/
structure DetectionConfig where
  roi : Roi
  bright_threshold : ℤ
  min_bright_pixels : Nat
deriving Repr, DecidableEq

/-- DetectionConfig.validate: width and height positive, threshold within
[0, 255] (min_bright_pixels is non-negative by its type). -/
def DetectionConfig.validate (cfg : DetectionConfig) : Bool :=
  0 < cfg.roi.w && 0 < cfg.roi.h &&
    0 ≤ cfg.bright_threshold && cfg.bright_threshold ≤ 255

/-- Numpy slicing frame[y : y + h, x : x + w] with non-negative bounds:
out-of-range parts are clamped away, never an error. -/
def slice2d (roi : Roi) (rows : List (List α)) : List (List α) :=
  ((rows.drop roi.y).take roi.h).map (fun r => (r.drop roi.x).take roi.w)

/-- A crop is empty when it has no pixels (zero rows, or every row of zero
width); OpenCV conversions reject such inputs. -/
def cropIsEmpty (rows : List (List α)) : Bool :=
  rows.isEmpty || rows.all (fun r => r.isEmpty)

/-- OpenCV BGR to grayscale conversion for one pixel: the standard luminance
weights 0.299 R + 0.587 G + 0.114 B, rounded to the nearest integer. -/
def bgrToGray (p : Nat × Nat × Nat) : Nat :=
  (299 * p.2.2 + 587 * p.2.1 + 114 * p.1 + 500) / 1000

/-- Count of pixels of a two-dimensional array satisfying a predicate. -/
def countPixels (rows : List (List α)) (pred : α → Bool) : Nat :=
  (rows.map (fun r => (r.filter pred).length)).sum

/-- BrightSpotDetector._extract_roi: numpy slicing of the frame; raises only
when the frame is not an array (for example None). -/
def extract_roi (cfg : DetectionConfig) (frame : Frame) : Except String Frame :=
  match frame with
  | .malformed => .error "TypeError: frame is not an ndarray"
  | .gray rows => .ok (.gray (slice2d cfg.roi rows))
  | .color rows => .ok (.color (slice2d cfg.roi rows))

/-- BrightSpotDetector._detect_in_grayscale: for a color crop, cv2.cvtColor
to grayscale (which asserts a non-empty input) and count pixels strictly
above the threshold (cv2.threshold with THRESH_BINARY keeps src > thresh);
a grayscale crop is thresholded directly. -/
def detect_in_grayscale (cfg : DetectionConfig) (roi_frame : Frame) : Except String Nat :=
  match roi_frame with
  | .malformed => .error "TypeError: not an ndarray"
  | .color rows =>
    if cropIsEmpty rows then
      .error "cv2.error: cvtColor called on an empty input image"
    else
      .ok (countPixels rows (fun p => cfg.bright_threshold < (bgrToGray p : ℤ)))
  | .gray rows => .ok (countPixels rows (fun p => cfg.bright_threshold < (p : ℤ)))

/-- BrightSpotDetector._detect_in_red_channel: 0 for a frame without color
channels; otherwise count red-channel pixels strictly above threshold - 50
(again cv2.threshold with THRESH_BINARY, src > thresh). -/
def detect_in_red_channel (cfg : DetectionConfig) (roi_frame : Frame) : Except String Nat :=
  match roi_frame with
  | .malformed => .error "TypeError: not an ndarray"
  | .gray _ => .ok 0
  | .color rows =>
    .ok (countPixels rows (fun p => cfg.bright_threshold - 50 < (p.2.2 : ℤ)))

/-- The body of the try block of BrightSpotDetector.detect: crop, run both
channel counters, take the max, compare against min_bright_pixels. Any fault
in a step aborts the chain with the raised error. -/
def detectCore (cfg : DetectionConfig) (frame : Frame) : Except String (Bool × Nat) :=
  match extract_roi cfg frame with
  | .error e => .error e
  | .ok roi_frame =>
    match detect_in_grayscale cfg roi_frame with
    | .error e => .error e
    | .ok gray_pixels =>
      match detect_in_red_channel cfg roi_frame with
      | .error e => .error e
      | .ok red_pixels =>
        .ok (decide (cfg.min_bright_pixels ≤ max gray_pixels red_pixels),
          max gray_pixels red_pixels)

/-- BrightSpotDetector.detect: the try body with the except-all handler that
logs and reports (False, 0) on any processing fault. -/
def detect (cfg : DetectionConfig) (frame : Frame) : Bool × Nat :=
  match detectCore cfg frame with
  | .ok r => r
  | .error _ => (false, 0)

/-- Modelled from the claim wording of C7 (the spec sentence on detector
confidence): confidence is the max of the count of luminance pixels at or
above the threshold over the ROI crop and the count of red-channel pixels at
or above threshold - 50 (0 for a frame without color channels), with
is_on = (confidence at least min_bright_pixels). Used only to compare the
claimed inequality direction against the source. -/
def detect_claimed (cfg : DetectionConfig) (frame : Frame) : Bool × Nat :=
  let counts : Nat × Nat :=
    match frame with
    | .malformed => (0, 0)
    | .gray rows =>
      (countPixels (slice2d cfg.roi rows) (fun p => cfg.bright_threshold ≤ (p : ℤ)), 0)
    | .color rows =>
      (countPixels (slice2d cfg.roi rows) (fun p => cfg.bright_threshold ≤ (bgrToGray p : ℤ)),
       countPixels (slice2d cfg.roi rows) (fun p => cfg.bright_threshold - 50 ≤ (p.2.2 : ℤ)))
  let confidence := max counts.1 counts.2
  (decide (cfg.min_bright_pixels ≤ confidence), confidence)

/-- The amended wording of C7: as detect_claimed, but with both bright-pixel
counts taken strictly above the threshold, matching cv2.threshold with
THRESH_BINARY (src > thresh). -/
def detect_claimed_strict (cfg : DetectionConfig) (frame : Frame) : Bool × Nat :=
  let counts : Nat × Nat :=
    match frame with
    | .malformed => (0, 0)
    | .gray rows =>
      (countPixels (slice2d cfg.roi rows) (fun p => cfg.bright_threshold < (p : ℤ)), 0)
    | .color rows =>
      (countPixels (slice2d cfg.roi rows) (fun p => cfg.bright_threshold < (bgrToGray p : ℤ)),
       countPixels (slice2d cfg.roi rows) (fun p => cfg.bright_threshold - 50 < (p.2.2 : ℤ)))
  let confidence := max counts.1 counts.2
  (decide (cfg.min_bright_pixels ≤ confidence), confidence)

/-- DetectionState of the monitor (src/config/settings.py, GeneratorState). -/
inductive GeneratorState where
  | unknown
  | on
  | off
deriving Repr, DecidableEq

/-- The in-memory state GeneratorMonitor keeps across ticks: the current
debounced state, the active session id (None when no session is open) and
the count of observed ON and OFF changes after the first classification. -/
structure MonitorState where
  current_state : GeneratorState
  active_session_id : Option Nat
  state_change_count : Nat
deriving Repr, DecidableEq

/-- Observable repository invocations a tick performs, in order. -/
inductive RepoCall where
  | startSession (bright_pixels : Nat)
  | endSession (session_id : Nat) (bright_pixels : Nat)
  | addEvent (event_type : String) (bright_pixels : Nat)
deriving Repr, DecidableEq

/-- The database effect of an add_event call made by the monitor: on success
the committed state, on a raised statement error the rolled-back (unchanged)
state; the exception then propagates out of the tick and is swallowed by the
try/except of GeneratorMonitor._main_loop, after the session bookkeeping of
the tick has already happened. -/
def applyAddEvent (db : Db) (now : ℚ) (event_type : String) (bright_pixels : Nat)
    (message : Option String) : Db :=
  match db.add_event now event_type bright_pixels message with
  | .ok r => r.2
  | .error _ => db

/-- GeneratorMonitor._handle_state_change, called after current_state has
been updated: on ON, start a new session and record its id as active, then
add an ON event; on OFF, end the active session if one is tracked and clear
it, then add an OFF event. Returns the new monitor state, the new database
state and the trace of repository calls. -/
def handle_state_change (m : MonitorState) (db : Db) (now : ℚ) (bright_pixels : Nat) :
    MonitorState × Db × List RepoCall :=
  if m.current_state = .on then
    let r := db.start_session now bright_pixels
    let db2 := applyAddEvent r.2 now "ON" bright_pixels (some "Генератор увімкнено")
    ({ m with active_session_id := some r.1 }, db2,
      [.startSession bright_pixels, .addEvent "ON" bright_pixels])
  else
    match m.active_session_id with
    | some sid =>
      let db1 := db.end_session now sid bright_pixels none
      let db2 := applyAddEvent db1 now "OFF" bright_pixels (some "Генератор вимкнено")
      ({ m with active_session_id := none }, db2,
        [.endSession sid bright_pixels, .addEvent "OFF" bright_pixels])
    | none =>
      let db2 := applyAddEvent db now "OFF" bright_pixels (some "Генератор вимкнено")
      (m, db2, [.addEvent "OFF" bright_pixels])

/-- The state a detector reading classifies to. -/
def classify (is_detected : Bool) : GeneratorState :=
  if is_detected then .on else .off

/-- GeneratorMonitor._process_frame given the classification of the frame:
on the first classification (current state UNKNOWN) adopt the new state and
handle it as a change; afterwards, only a disagreeing classification fires a
transition (and bumps the change counter); a matching one does nothing. -/
def process_frame (m : MonitorState) (db : Db) (is_detected : Bool) (bright_pixels : Nat)
    (now : ℚ) : MonitorState × Db × List RepoCall :=
  let new_state := classify is_detected
  if m.current_state = .unknown then
    handle_state_change { m with current_state := new_state } db now bright_pixels
  else if m.current_state ≠ new_state then
    handle_state_change
      { m with current_state := new_state, state_change_count := m.state_change_count + 1 }
      db now bright_pixels
  else
    (m, db, [])

/-- One tick input: the classification of the pulled frame (is_detected and
bright-pixel count from the detector) and the wall-clock instant. -/
structure TickInput where
  is_detected : Bool
  bright_pixels : Nat
  now : ℚ
deriving Repr, DecidableEq

/-- A sequence of successful monitor ticks, threading monitor and database
state and concatenating the repository-call traces. -/
def run_ticks (m : MonitorState) (db : Db) : List TickInput → MonitorState × Db × List RepoCall
  | [] => (m, db, [])
  | i :: rest =>
    let r := process_frame m db i.is_detected i.bright_pixels i.now
    let rr := run_ticks r.1 r.2.1 rest
    (rr.1, rr.2.1, r.2.2 ++ rr.2.2)

/-- GeneratorMonitor.start, crash-recovery part: DetectionState begins at
UNKNOWN and the active session id is adopted from get_active_session when an
open session is found (session ids are at least 1, so the Python truthiness
test on the id equals Option.isSome). -/
def monitor_start (db : Db) : MonitorState :=
  { current_state := .unknown,
    active_session_id := db.get_active_session,
    state_change_count := 0 }

/-- A ledger holding nothing, with a configured fuel row. -/
def emptyDb : Db :=
  { sessions := [], next_session_id := 1, events := [], next_event_id := 1,
    fuel_config_row :=
      some { fuel_rate_per_hour := 3/2, fuel_tank_capacity := 20, fuel_price_per_liter := 50 } }

/-- A ledger as found after a crash: one session (id 1) still open. -/
def recoveredDb : Db :=
  { sessions := [{ id := 1, start_time := 100, start_bright_pixels := some 80 }],
    next_session_id := 2, events := [], next_event_id := 1,
    fuel_config_row :=
      some { fuel_rate_per_hour := 3/2, fuel_tank_capacity := 20, fuel_price_per_liter := 50 } }

/-- A ledger with one already-closed session (id 1, ran from 0 to 5 seconds). -/
def closedDb : Db :=
  { sessions := [{ id := 1, start_time := 0, end_time := some 5,
                   duration_seconds := some 5, duration_hours := some (5/3600),
                   fuel_consumption_liters := some (5/3600 * (3/2)),
                   start_bright_pixels := some 9, end_bright_pixels := some 7 }],
    next_session_id := 2, events := [], next_event_id := 1,
    fuel_config_row :=
      some { fuel_rate_per_hour := 3/2, fuel_tank_capacity := 20, fuel_price_per_liter := 50 } }

/-- A ledger built through the repository operations themselves: three
sessions on day 0 with durations of 1, 2 and 0.5 hours, closed under the
default fuel configuration (rate 1.5 liters per hour, price 50). -/
def statsDemoDb : Db :=
  let db0 : Db :=
    { sessions := [], next_session_id := 1, events := [], next_event_id := 1,
      fuel_config_row := none }
  let r1 := db0.start_session 1000 10
  let db1 := r1.2.end_session (1000 + 3600) r1.1 11 none
  let r2 := db1.start_session 10000 12
  let db2 := r2.2.end_session (10000 + 7200) r2.1 13 none
  let r3 := db2.start_session 20000 14
  r3.2.end_session (20000 + 1800) r3.1 15 none

/-- The detector configuration used in the C7 counterexample: a one-pixel
ROI, threshold 200, min_bright_pixels 1. -/
def cfgC7 : DetectionConfig :=
  { roi := { x := 0, y := 0, w := 1, h := 1 }, bright_threshold := 200, min_bright_pixels := 1 }

/-- The frame used in the C7 counterexample: a single grayscale pixel whose
value equals the threshold exactly. -/
def frameC7 : Frame := .gray [[200]]

/-- A ledger whose fuel_config singleton row is absent. -/
def noFuelRowDb : Db :=
  { sessions := [], next_session_id := 1, events := [], next_event_id := 1,
    fuel_config_row := none }

/-! Helper lemmas shared by the claim theorems. -/

/-- Truncation of zero is zero. -/
theorem pyInt_zero : pyInt 0 = 0 := rfl

/-- A search skips a prefix on which the predicate is everywhere false. -/
theorem findq_append_right {α : Type _} (p : α → Bool) (l l2 : List α)
    (h : ∀ a ∈ l, p a = false) : (l ++ l2).find? p = l2.find? p := by
  induction l with
  | nil => rfl
  | cons a as ih =>
    have ha := h a (by simp)
    simpa [List.find?, ha] using ih (fun b hb => h b (by simp [hb]))

/-- The UPDATE of end_session touches only rows with the targeted id, so it
commutes with looking that id up: searching the updated table finds the
updated image of the row the search on the original table finds. -/
theorem findq_map_close (session_id : Nat) (c : GeneratorSession) (l : List GeneratorSession) :
    (l.map (applySessionClose session_id c)).find? (fun s => s.id == session_id) =
      (l.find? (fun s => s.id == session_id)).map (applySessionClose session_id c) := by
  induction l with
  | nil => rfl
  | cons a as ih =>
    cases h : (a.id == session_id) with
    | true =>
      have hfa : ((applySessionClose session_id c a).id == session_id) = true := by
        simp only [applySessionClose, h, if_true]
      simp [List.find?_cons, h, hfa]
    | false =>
      have hfa : applySessionClose session_id c a = a := by
        simp only [applySessionClose, h]
        rfl
      simp [List.find?_cons, h, hfa, ih]

/-- The UPDATE of end_session leaves every row with a different id exactly
as it was: the sublist of non-targeted rows (in order, with all their
fields) is unchanged by the update. -/
theorem filter_ne_map_close (session_id : Nat) (c : GeneratorSession) (l : List GeneratorSession) :
    (l.map (applySessionClose session_id c)).filter (fun s => !(s.id == session_id)) =
      l.filter (fun s => !(s.id == session_id)) := by
  induction l with
  | nil => rfl
  | cons a as ih =>
    cases h : (a.id == session_id) with
    | true =>
      have hida : ((applySessionClose session_id c a).id == session_id) = true := by
        simp only [applySessionClose, h, if_true]
      simp [List.filter_cons, h, hida, ih]
    | false =>
      have hfa : applySessionClose session_id c a = a := by
        simp only [applySessionClose, h]
        rfl
      simp [List.filter_cons, h, hfa, ih]

/-! Claim theorems. -/

/-- C1: the claim states that after every tick from UNKNOWN, including a
startup that adopts an open session recovered by get_active_session, at most
one session has no end_time. The code violates this: starting from a ledger
whose recovered session 1 is open, a first frame classifying ON makes
_handle_state_change call start_session (overwriting the adopted id) without
closing or reusing session 1, leaving TWO open sessions after that tick. -/
theorem C1_recovered_on_tick_leaves_two_open_sessions :
    recoveredDb.get_active_session = some 1 ∧
    recoveredDb.open_session_count = 1 ∧
    (run_ticks (monitor_start recoveredDb) recoveredDb
      [{ is_detected := true, bright_pixels := 120, now := 200 }]).2.1.open_session_count = 2 := by
  decide

/-- C2: the claim states that a session id recovered at startup is passed to
the next end_session call. In the run where the first frame classifies ON
and the second OFF, the trace shows start_session firing at the ON
transition and the next (only) end_session receiving the id 2 of the fresh
session, not the recovered id 1; session 1 is still open afterwards. -/
theorem C2_recovered_id_not_reused_by_next_end_session :
    recoveredDb.get_active_session = some 1 ∧
    (run_ticks (monitor_start recoveredDb) recoveredDb
      [{ is_detected := true, bright_pixels := 120, now := 200 },
       { is_detected := false, bright_pixels := 4, now := 300 }]).2.2 =
      [.startSession 120, .addEvent "ON" 120, .endSession 2 4, .addEvent "OFF" 4] ∧
    ((run_ticks (monitor_start recoveredDb) recoveredDb
      [{ is_detected := true, bright_pixels := 120, now := 200 },
       { is_detected := false, bright_pixels := 4, now := 300 }]).2.1.get_session 1).map
      (fun s => s.end_time) = some none := by
  decide

/-- C3 counterexample: end_session on the id of an already-closed session is
not a no-op. In closedDb session 1 is closed with duration_seconds 5; calling
end_session on it again at time 3600 overwrites the stored fields, changing
duration_seconds to 3600. -/
theorem C3_end_session_closed_id_not_noop_counterexample :
    (closedDb.get_session 1).map (fun s => s.duration_seconds) = some (some 5) ∧
    ((closedDb.end_session 3600 1 2 none).get_session 1).map (fun s => s.duration_seconds) =
      some (some 3600) ∧
    closedDb.end_session 3600 1 2 none ≠ closedDb := by
  decide

/-- C3 amended: end_session on a session id that does not exist in the
ledger is a no-op and raises nothing (the function is total); on an id that
does exist — whether open or already closed — it keeps the session count
unchanged, leaves every session with a different id exactly as it was (the
ordered sublist of other rows is equal before and after), and overwrites the
found session's end fields with values recomputed from its stored start_time
to the current time. -/
theorem C3_end_session_missing_id_noop_existing_id_overwritten
    (db : Db) (now : ℚ) (session_id bright_pixels : Nat) (notes : Option String) :
    (db.get_session session_id = none → db.end_session now session_id bright_pixels notes = db) ∧
    (db.end_session now session_id bright_pixels notes).sessions.length = db.sessions.length ∧
    (db.end_session now session_id bright_pixels notes).sessions.filter
        (fun s => !(s.id == session_id)) =
      db.sessions.filter (fun s => !(s.id == session_id)) ∧
    (∀ s0, db.get_session session_id = some s0 →
      (db.end_session now session_id bright_pixels notes).get_session session_id =
        some (closeSession s0 now db.get_fuel_config.fuel_rate_per_hour bright_pixels notes)) := by
  refine ⟨?_, ?_, ?_, ?_⟩
  · intro h
    simp only [Db.get_session] at h
    simp only [Db.end_session, h]
  · simp only [Db.end_session, Db.get_session]
    cases h : db.sessions.find? (fun s => s.id == session_id) with
    | none => rfl
    | some s0 => simp
  · simp only [Db.end_session, Db.get_session]
    cases h : db.sessions.find? (fun s => s.id == session_id) with
    | none => rfl
    | some s0 => exact filter_ne_map_close session_id _ db.sessions
  · intro s0 h
    simp only [Db.get_session] at h
    have hp := List.find?_some h
    simp only at hp
    simp only [Db.end_session, Db.get_session, h]
    rw [findq_map_close, h]
    simp [applySessionClose, hp, closeSession]

/-- C3 witness: the amended theorem applied at concrete inputs — a missing
id on the empty ledger is a no-op, and re-closing the closed session of
closedDb at time 3600 yields exactly the recomputed close fields. -/
theorem C3_end_session_amended_witness :
    emptyDb.end_session 5 1 2 none = emptyDb ∧
    (closedDb.end_session 3600 1 2 none).get_session 1 =
      some (closeSession
        { id := 1, start_time := 0, end_time := some 5,
          duration_seconds := some 5, duration_hours := some (5/3600),
          fuel_consumption_liters := some (5/3600 * (3/2)),
          start_bright_pixels := some 9, end_bright_pixels := some 7 }
        3600 (3/2) 2 none) :=
  ⟨(C3_end_session_missing_id_noop_existing_id_overwritten emptyDb 5 1 2 none).1 (by decide),
   (C3_end_session_missing_id_noop_existing_id_overwritten closedDb 3600 1 2 none).2.2.2 _
     (by decide)⟩

/-- C4: the claim states add_event is an append-only insert that succeeds
unless storage fails. The INSERT statement in the source names five columns
— among them snapshot_path, which the generator_events table does not have —
but supplies only four values, so sqlite3 raises OperationalError on every
call (independently of storage health), the transaction is rolled back, and
the exception reaches the caller: add_event never succeeds and never stores
an event. -/
theorem C4_add_event_always_raises (db : Db) (now : ℚ) (event_type : String)
    (bright_pixels : Nat) (message : Option String) :
    db.add_event now event_type bright_pixels message =
      .error "sqlite3.OperationalError: table generator_events has no column named snapshot_path" ∧
    generator_events_table_columns.contains "snapshot_path" = false ∧
    add_event_insert_columns.length = 5 ∧
    add_event_insert_value_count = 4 := by
  exact ⟨rfl, by decide, by decide, by decide⟩

/-- C5: a tick whose frame classifies to the current state (which is ON or
OFF) is a complete no-op — the monitor state (DetectionState, active session
id, state-change count) and the whole database are unchanged and no
repository call is made — and any number of such ticks in sequence still has
the null effect. -/
theorem C5_same_state_ticks_are_noop (m : MonitorState) (db : Db) (ticks : List TickInput)
    (hstate : m.current_state = .on ∨ m.current_state = .off)
    (hsame : ∀ i ∈ ticks, classify i.is_detected = m.current_state) :
    run_ticks m db ticks = (m, db, []) := by
  induction ticks with
  | nil => rfl
  | cons i rest ih =>
    have h1 : classify i.is_detected = m.current_state := hsame i (by simp)
    have h2 : ¬ m.current_state = GeneratorState.unknown := by
      rcases hstate with h | h <;> simp [h]
    have hpf : process_frame m db i.is_detected i.bright_pixels i.now = (m, db, []) := by
      simp [process_frame, h1, h2]
    have hrest : run_ticks m db rest = (m, db, []) :=
      ih (fun j hj => hsame j (by simp [hj]))
    simp [run_ticks, hpf, hrest]

/-- C5 witness: two consecutive ON-classifying ticks on a monitor already in
the ON state change nothing. -/
theorem C5_same_state_ticks_are_noop_witness :
    run_ticks { current_state := .on, active_session_id := some 1, state_change_count := 3 }
      recoveredDb
      [{ is_detected := true, bright_pixels := 7, now := 1 },
       { is_detected := true, bright_pixels := 9, now := 2 }] =
      ({ current_state := .on, active_session_id := some 1, state_change_count := 3 },
        recoveredDb, []) :=
  C5_same_state_ticks_are_noop _ _ _ (Or.inl rfl) (by decide)

/-- C6: detect is total on every frame input (the try/except of the source
catches every processing fault), and every faulting path — a malformed
frame, or any error inside the detection pipeline, in particular a color
crop made empty by an out-of-bounds ROI — yields (is_on = false,
confidence = 0). -/
theorem C6_detect_never_raises_faults_yield_false_zero :
    (∀ cfg : DetectionConfig, detect cfg .malformed = (false, 0)) ∧
    (∀ (cfg : DetectionConfig) (frame : Frame) (e : String),
      detectCore cfg frame = .error e → detect cfg frame = (false, 0)) ∧
    (∀ (cfg : DetectionConfig) (rows : List (List (Nat × Nat × Nat))),
      cropIsEmpty (slice2d cfg.roi rows) = true → detect cfg (.color rows) = (false, 0)) := by
  refine ⟨fun cfg => rfl, ?_, ?_⟩
  · intro cfg frame e h
    simp [detect, h]
  · intro cfg rows h
    simp [detect, detectCore, extract_roi, detect_in_grayscale, h]

/-- C6 witness: the fault theorem applied to a concrete ROI lying wholly
outside a one-pixel color frame — the empty crop makes cvtColor fault and
detect reports (false, 0). -/
theorem C6_detect_never_raises_witness :
    detect { roi := { x := 5, y := 5, w := 2, h := 2 }, bright_threshold := 190,
             min_bright_pixels := 0 }
      (.color [[(255, 255, 255)]]) = (false, 0) :=
  C6_detect_never_raises_faults_yield_false_zero.2.2 _ [[(255, 255, 255)]] (by decide)

/-- C7 counterexample: the claim counts pixels at or above the threshold,
but cv2.threshold with THRESH_BINARY keeps only pixels strictly above it. On
a valid configuration (threshold 200, min_bright_pixels 1) and a one-pixel
grayscale frame whose pixel equals the threshold exactly, the claimed
formula gives (is_on = true, confidence = 1) while the code gives
(false, 0). -/
theorem C7_threshold_at_equality_counterexample :
    cfgC7.validate = true ∧
    detect_claimed cfgC7 frameC7 = (true, 1) ∧
    detect cfgC7 frameC7 = (false, 0) := by
  decide

/-- C7 amended: for every valid configuration and well-formed frame whose
ROI crop is non-empty when the frame has color channels, detect returns
confidence = max(count of luminance pixels STRICTLY above the threshold over
the ROI crop, count of red-channel pixels STRICTLY above threshold - 50, the
latter being 0 when the frame has no separate color channels), and
is_on = (confidence at least min_bright_pixels); confidence, a count, is
non-negative by type. -/
theorem C7_detect_matches_strict_claim (cfg : DetectionConfig) (frame : Frame)
    (hv : cfg.validate = true)
    (hframe : frame ≠ .malformed)
    (hcolor : ∀ rows, frame = .color rows → cropIsEmpty (slice2d cfg.roi rows) = false) :
    detect cfg frame = detect_claimed_strict cfg frame ∧
    (detect cfg frame).1 = decide (cfg.min_bright_pixels ≤ (detect cfg frame).2) := by
  cases frame with
  | malformed => exact absurd rfl hframe
  | gray rows => exact ⟨rfl, rfl⟩
  | color rows =>
    have h := hcolor rows rfl
    refine ⟨?_, ?_⟩ <;>
      simp [detect, detectCore, extract_roi, detect_in_grayscale, detect_in_red_channel,
        detect_claimed_strict, h]

/-- C7 witness: the amended theorem applied to a one-pixel color frame whose
red channel is bright — the red-channel count carries the max and the pixel
is reported ON. -/
theorem C7_detect_matches_strict_claim_witness :
    detect { roi := { x := 0, y := 0, w := 1, h := 1 }, bright_threshold := 100,
             min_bright_pixels := 1 }
        (.color [[(0, 0, 255)]]) =
      detect_claimed_strict
        { roi := { x := 0, y := 0, w := 1, h := 1 }, bright_threshold := 100,
          min_bright_pixels := 1 }
        (.color [[(0, 0, 255)]]) :=
  (C7_detect_matches_strict_claim _ _ (by decide) (by decide)
    (fun rows h => by cases h; decide)).1

/-- C8: the daily statistics of _get_stats_for_date are computed over
exactly the sessions whose start_time falls on the queried date: the session
count is the size of that filter, total runtime and total fuel sum the
filtered duration_hours and fuel_consumption_liters with NULL read as 0,
cost prices the total fuel, the average is 0 (not a division fault) for a
day without sessions and total runtime over the count otherwise; and on the
ledger statsDemoDb built by closing three same-day sessions of 1, 2 and 0.5
hours at rate 1.5 l/h, the day-0 statistics are runtime 7/2 = 3.5 h, 3
sessions, fuel 21/4 = 5.25 l, and average 7/6 (which is within 1/10000 of
the 1.1667 stated by the claim). -/
theorem C8_daily_stats_aggregation (sessions : List GeneratorSession) (d : ℤ) (price : ℚ) :
    (get_stats_for_date sessions d price).sessions_count =
      (sessions.filter (onDate d)).length ∧
    (get_stats_for_date sessions d price).total_runtime_hours =
      ((sessions.filter (onDate d)).map (fun s => s.duration_hours.getD 0)).sum ∧
    (get_stats_for_date sessions d price).total_fuel_liters =
      ((sessions.filter (onDate d)).map (fun s => s.fuel_consumption_liters.getD 0)).sum ∧
    (get_stats_for_date sessions d price).total_cost =
      (get_stats_for_date sessions d price).total_fuel_liters * price ∧
    ((get_stats_for_date sessions d price).sessions_count = 0 →
      (get_stats_for_date sessions d price).avg_session_duration = 0) ∧
    ((get_stats_for_date sessions d price).sessions_count ≠ 0 →
      (get_stats_for_date sessions d price).avg_session_duration =
        (get_stats_for_date sessions d price).total_runtime_hours /
          ((get_stats_for_date sessions d price).sessions_count : ℚ)) ∧
    get_stats_for_date (statsDemoDb.get_all_sessions 1000) 0
        statsDemoDb.get_fuel_config.fuel_price_per_liter =
      { date := 0, total_runtime_hours := 7/2, total_fuel_liters := 21/4,
        total_cost := 525/2, sessions_count := 3, avg_session_duration := 7/6 } := by
  refine ⟨rfl, rfl, rfl, rfl, ?_, ?_, by decide⟩
  · intro h
    simp only [get_stats_for_date] at h ⊢
    simp only [List.isEmpty_iff_length_eq_zero, h, if_true]
  · intro h
    simp only [get_stats_for_date] at h ⊢
    rw [if_neg]
    simpa [List.isEmpty_iff_length_eq_zero] using h

/-- C8 witness: the average-duration branch of the aggregation theorem
applied to the three-session demo ledger, whose day-0 session count is
non-zero. -/
theorem C8_daily_stats_aggregation_witness :
    (get_stats_for_date (statsDemoDb.get_all_sessions 1000) 0 50).avg_session_duration =
      (get_stats_for_date (statsDemoDb.get_all_sessions 1000) 0 50).total_runtime_hours /
        ((get_stats_for_date (statsDemoDb.get_all_sessions 1000) 0 50).sessions_count : ℚ) :=
  (C8_daily_stats_aggregation (statsDemoDb.get_all_sessions 1000) 0 50).2.2.2.2.2.1
    (by decide)

/-- C9: starting a session and ending it at the same clock instant (with a
fresh AUTOINCREMENT id, as SQLite guarantees) produces a closed session with
duration_seconds = 0 and fuel_consumption_liters = 0 (and duration 0 hours,
end_time equal to start_time). -/
theorem C9_round_trip_zero_duration_zero_fuel (db : Db) (now : ℚ) (c : Nat)
    (hfresh : ∀ s ∈ db.sessions, s.id ≠ db.next_session_id) :
    ((db.start_session now c).2.end_session now (db.start_session now c).1 c none).get_session
        (db.start_session now c).1 =
      some { id := db.next_session_id, start_time := now, end_time := some now,
             duration_seconds := some 0, duration_hours := some 0,
             fuel_consumption_liters := some 0, start_bright_pixels := some c,
             end_bright_pixels := some c, notes := none } := by
  have hfalse : ∀ s ∈ db.sessions, (s.id == db.next_session_id) = false := by
    intro s hs
    simpa using hfresh s hs
  have hfind :
      ((db.start_session now c).2.sessions.find? (fun s => s.id == db.next_session_id)) =
        some { id := db.next_session_id, start_time := now, start_bright_pixels := some c } := by
    simp only [Db.start_session]
    rw [findq_append_right _ _ _ hfalse]
    simp [List.find?]
  simp only [Db.start_session] at hfind ⊢
  simp only [Db.end_session, Db.get_session, hfind]
  rw [findq_map_close, hfind]
  simp [applySessionClose, closeSession, pyInt_zero, Db.get_fuel_config]

/-- C9 witness: the round trip on the empty ledger at time 0 with confidence
5 yields the fully-zero closed session. -/
theorem C9_round_trip_witness :
    ((emptyDb.start_session 0 5).2.end_session 0 (emptyDb.start_session 0 5).1 5 none).get_session
        (emptyDb.start_session 0 5).1 =
      some { id := 1, start_time := 0, end_time := some 0,
             duration_seconds := some 0, duration_hours := some 0,
             fuel_consumption_liters := some 0, start_bright_pixels := some 5,
             end_bright_pixels := some 5, notes := none } :=
  C9_round_trip_zero_duration_zero_fuel emptyDb 0 5 (by simp [emptyDb])

/-- C10: when the fuel_config singleton row is absent, get_fuel_config does
not fail or return nothing — it is total and returns the built-in default
row with rate 3/2 = 1.5 l/h, tank 20.0 l, price 50.0 per liter, so every
end_session cost computation has a defined fuel rate. -/
theorem C10_missing_fuel_row_yields_default (db : Db) (h : db.fuel_config_row = none) :
    db.get_fuel_config =
      { fuel_rate_per_hour := 3/2, fuel_tank_capacity := 20, fuel_price_per_liter := 50 } := by
  simp [Db.get_fuel_config, h]

/-- C10 witness: the default-config theorem applied to a ledger without the
fuel row. -/
theorem C10_missing_fuel_row_yields_default_witness :
    noFuelRowDb.get_fuel_config =
      { fuel_rate_per_hour := 3/2, fuel_tank_capacity := 20, fuel_price_per_liter := 50 } :=
  C10_missing_fuel_row_yields_default noFuelRowDb rfl

end GenMon
